import Mathlib

/-!
Verification of the AstroVision backend discovery pipeline
(src/server.js): the astrometry polling client
(getCalibrationResults), the pixel-difference scorer
(performChangeDetection) and the orchestrating route handler
(app.post /api/analyze-discovery).

External collaborators (the plate-solving HTTP service, the image
library and the pixel-comparison library) are modelled as explicit
parameters: a Solver record gives the status responses the service
returns on each attempt, and decode outcomes stand for what the image
library returns for each input.
-/

/-- An RGBA pixel, each channel in 0..255. -/
structure Pixel where
  r : Nat
  g : Nat
  b : Nat
  a : Nat
  deriving DecidableEq

/-- A decoded raster image: dimensions and a pixel grid. -/
structure Image where
  width : Nat
  height : Nat
  pix : Nat → Nat → Pixel

/-- A solved sky position, as returned by the calibration endpoint of
the plate-solving service (right ascension and declination in
degrees). -/
structure Calibration where
  ra : Rat
  dec : Rat
  deriving DecidableEq

/-- The body of one status response of the plate-solving service for a
submission: the list of completed calibration jobs and the list of job
ids (fields job_calibrations and jobs of the JSON response). -/
structure StatusResponse where
  job_calibrations : List Nat
  jobs : List Nat
  deriving DecidableEq

/-- The external plate-solving service, relativized to one submission:
status i is the response body of the status query made on attempt i
(0-based), and calibOf j is the calibration the job-calibration
endpoint returns for job id j (none models the out-of-range index
jobs[0] on an empty jobs list). -/
structure Solver where
  status : Nat → StatusResponse
  calibOf : Option Nat → Calibration

/-- The observable outcome of the polling loop: the returned value or
thrown error, the number of status queries made, and the total
milliseconds spent sleeping between attempts. -/
structure PollOutcome where
  result : Except String Calibration
  queries : Nat
  sleptMs : Nat

/-- One execution of the for-loop body of getCalibrationResults,
starting at attempt index i with the given number of remaining
iterations: query the status; if job_calibrations is non-empty, fetch
the calibration of jobs[0] and return it; otherwise sleep 3000 ms and
continue.  When the iterations are exhausted the loop throws the
timeout error. -/
def pollSteps (s : Solver) (i : Nat) : Nat → PollOutcome
  | 0 => ⟨.error "Astrometry solving timed out.", 0, 0⟩
  | fuel + 1 =>
    let r := s.status i
    if r.job_calibrations.length > 0 then
      ⟨.ok (s.calibOf r.jobs.head?), 1, 0⟩
    else
      let rest := pollSteps s (i + 1) fuel
      ⟨rest.result, rest.queries + 1, rest.sleptMs + 3000⟩

/-- getCalibrationResults of src/server.js: poll the submission status
for at most 20 attempts, starting at attempt 0. -/
def getCalibrationResults (s : Solver) : PollOutcome :=
  pollSteps s 0 20

theorem pollSteps_all_empty (s : Solver) :
    ∀ (fuel i : Nat), (∀ j, j < fuel → (s.status (i + j)).job_calibrations = []) →
    pollSteps s i fuel = ⟨.error "Astrometry solving timed out.", fuel, 3000 * fuel⟩ := by
  intro fuel
  induction fuel with
  | zero => intro i _; rfl
  | succ n ih =>
    intro i h
    have h0 : (s.status i).job_calibrations = [] := by
      have := h 0 (Nat.succ_pos n)
      simpa using this
    have hrest := ih (i + 1) (by
      intro j hj
      have := h (j + 1) (Nat.succ_lt_succ hj)
      simpa [Nat.add_assoc, Nat.add_comm 1 j] using this)
    simp only [pollSteps, h0]
    rw [hrest]
    simp [Nat.mul_succ]

theorem pollSteps_first_success (s : Solver) :
    ∀ (fuel i k : Nat), k < fuel →
    (∀ j, j < k → (s.status (i + j)).job_calibrations = []) →
    (s.status (i + k)).job_calibrations ≠ [] →
    pollSteps s i fuel =
      ⟨.ok (s.calibOf (s.status (i + k)).jobs.head?), k + 1, 3000 * k⟩ := by
  intro fuel
  induction fuel with
  | zero => intro i k hk; omega
  | succ n ih =>
    intro i k hk hbefore hat
    match k with
    | 0 =>
      have hne : (s.status i).job_calibrations ≠ [] := by simpa using hat
      have hlen : (s.status i).job_calibrations.length > 0 :=
        List.length_pos.mpr hne
      simp [pollSteps, hlen]
    | k + 1 =>
      have h0 : (s.status i).job_calibrations = [] := by
        have := hbefore 0 (Nat.succ_pos k)
        simpa using this
      have hrest := ih (i + 1) k (Nat.lt_of_succ_lt_succ hk)
        (by
          intro j hj
          have := hbefore (j + 1) (Nat.succ_lt_succ hj)
          simpa [Nat.add_assoc, Nat.add_comm 1 j] using this)
        (by
          have : i + 1 + k = i + (k + 1) := by omega
          rw [this]; exact hat)
      simp only [pollSteps, h0]
      rw [hrest]
      have : i + 1 + k = i + (k + 1) := by omega
      rw [this]
      simp [Nat.mul_succ]

/-- C2: if the solver never reports a completed calibration job, the
polling operation queries the submission status exactly 20 times, at a
fixed 3-second interval (20 sleeps of 3000 ms, 60000 ms in total), and
then fails with the solve-timeout error; it never polls
indefinitely. -/
theorem polling_times_out_after_20_attempts (s : Solver)
    (h : ∀ i, (s.status i).job_calibrations = []) :
    getCalibrationResults s =
      ⟨.error "Astrometry solving timed out.", 20, 60000⟩ := by
  have := pollSteps_all_empty s 20 0 (by intro j _; simpa using h j)
  simpa [getCalibrationResults] using this

/-- Solver mock that never reports a completed calibration job. -/
def solverNever : Solver :=
  ⟨fun _ => ⟨[], []⟩, fun _ => ⟨0, 0⟩⟩

/-- Witness for C2 at a concrete solver that never completes. -/
theorem polling_times_out_after_20_attempts_witness :
    getCalibrationResults solverNever =
      ⟨.error "Astrometry solving timed out.", 20, 60000⟩ :=
  polling_times_out_after_20_attempts solverNever (fun _ => rfl)

/-- C3: on the first polling attempt k (0-based) whose status response
reports at least one completed calibration job, the polling operation
fetches and returns the calibration data of the first
listed job of that response immediately: exactly k + 1 status queries are made (no
further polling attempts) and only the k earlier failed attempts
slept. -/
theorem polling_stops_on_first_completed_job (s : Solver) (k : Nat)
    (hk : k < 20)
    (hbefore : ∀ j, j < k → (s.status j).job_calibrations = [])
    (hat : (s.status k).job_calibrations ≠ []) :
    getCalibrationResults s =
      ⟨.ok (s.calibOf (s.status k).jobs.head?), k + 1, 3000 * k⟩ := by
  have := pollSteps_first_success s 20 0 k hk
    (by intro j hj; simpa using hbefore j hj)
    (by simpa using hat)
  simpa [getCalibrationResults] using this

/-- Solver mock that reports a completed job on the third attempt
(index 2) and whose calibration endpoint returns ra 10, dec 20. -/
def solverThird : Solver :=
  ⟨fun i => if i = 2 then ⟨[5], [42]⟩ else ⟨[], []⟩, fun _ => ⟨10, 20⟩⟩

/-- Witness for C3 at a concrete solver completing on attempt index 2:
three status queries, two sleeps. -/
theorem polling_stops_on_first_completed_job_witness :
    getCalibrationResults solverThird =
      ⟨.ok (solverThird.calibOf (solverThird.status 2).jobs.head?), 3, 6000⟩ :=
  polling_stops_on_first_completed_job solverThird 2 (by decide)
    (by intro j hj; interval_cases j <;> rfl) (by decide)

/-- Modelled from the spec: greyscale luminance of one pixel, a
weighted average of the colour channels (weights summing to 10000 so
that the luminance of a uniform channel value is that value).  The
image library converting to single-channel luminance is not part of
this repository. -/
def luminance (p : Pixel) : Nat :=
  (2126 * p.r + 7152 * p.g + 722 * p.b) / 10000

/-- Modelled from the spec: resize to w by h pixels by stretching, not
cropping — every output coordinate samples the source grid at the
proportionally scaled position.  The resize of the image library is
not part of this repository. -/
def Image.resize (img : Image) (w h : Nat) : Image :=
  ⟨w, h, fun x y => img.pix (x * img.width / w) (y * img.height / h)⟩

/-- Modelled from the spec: conversion to single-channel luminance —
every colour channel is replaced by the luminance, alpha kept.  The
greyscale of the image library is not part of this repository. -/
def Image.greyscale (img : Image) : Image :=
  ⟨img.width, img.height, fun x y =>
    ⟨luminance (img.pix x y), luminance (img.pix x y), luminance (img.pix x y),
      (img.pix x y).a⟩⟩

/-- The normalization chain applied to each decoded image in
performChangeDetection: resize to 500 by 500, then greyscale. -/
def Image.normalize (img : Image) : Image :=
  (img.resize 500 500).greyscale

/-- Modelled from the spec: whether two pixels differ beyond the
perceptual tolerance, fraction 0.15 of the full channel range 255
(38.25): luminances at distance strictly above 38.25 count as
different.  The pixel-comparison library is not part of this
repository. -/
def pixelDiffers (p q : Pixel) : Bool :=
  100 * Nat.dist (luminance p) (luminance q) > 3825

/-- Modelled from the spec: the pixel-difference scorer compares the
two grids at each of the w times h positions and returns the count of
positions whose pixels differ beyond the tolerance. -/
def countDiff (a b : Image) (w h : Nat) : Nat :=
  ((Finset.range w ×ˢ Finset.range h).filter
    (fun p => pixelDiffers (a.pix p.1 p.2) (b.pix p.1 p.2) = true)).card

/-- performChangeDetection of src/server.js, as a function of the two
decode outcomes (what the image library returns for the user buffer
and for the reference URL): on success of both, normalize each image
and count the differing pixels over the 500 by 500 grid; any decode
failure is caught and mapped to 0. -/
def performChangeDetection (userDecoded nasaDecoded : Except String Image) : Nat :=
  match userDecoded, nasaDecoded with
  | .ok userImg, .ok nasaImg => countDiff userImg.normalize nasaImg.normalize 500 500
  | _, _ => 0

theorem countDiff_comm (a b : Image) (w h : Nat) :
    countDiff a b w h = countDiff b a w h := by
  unfold countDiff
  congr 1
  apply Finset.filter_congr
  intro p _
  simp [pixelDiffers, Nat.dist_comm]

theorem countDiff_self (a : Image) (w h : Nat) : countDiff a a w h = 0 := by
  unfold countDiff
  rw [Finset.card_eq_zero, Finset.filter_eq_empty_iff]
  intro p _
  simp [pixelDiffers, Nat.dist_self]

/-- C6: for every decodable input image, whatever its dimensions or
aspect ratio, the normalizer outputs a 500 by 500 single-channel
(greyscale) grid: all three colour channels of every output pixel are
equal. -/
theorem normalizer_fixed_output (img : Image) :
    img.normalize.width = 500 ∧ img.normalize.height = 500 ∧
    ∀ x y, (img.normalize.pix x y).r = (img.normalize.pix x y).g ∧
      (img.normalize.pix x y).g = (img.normalize.pix x y).b := by
  exact ⟨rfl, rfl, fun x y => ⟨rfl, rfl⟩⟩

/-- C7: the difference scorer is symmetric — swapping the two
normalized images leaves the count unchanged, and the whole scoring
stage (decode outcomes included) is likewise symmetric. -/
theorem difference_scorer_symmetric (a b : Image) (u v : Except String Image) :
    countDiff a b 500 500 = countDiff b a 500 500 ∧
    performChangeDetection u v = performChangeDetection v u := by
  refine ⟨countDiff_comm a b 500 500, ?_⟩
  cases u <;> cases v <;> simp [performChangeDetection, countDiff_comm]

/-- Decimal rendering of a natural number padded on the left with
zeros to 4 digits, for the fractional part of toFixed4. -/
def pad4 (n : Nat) : String :=
  if n < 10 then "000" ++ toString n
  else if n < 100 then "00" ++ toString n
  else if n < 1000 then "0" ++ toString n
  else toString n

/-- The scaled-by-10000 rounding of a non-negative rational to the
nearest integer, halves up: the floor of q * 10000 + 1 / 2, written
with natural-number arithmetic on the reduced fraction. -/
def roundTo4 (q : Rat) : Nat :=
  (q.num.toNat * 20000 + q.den) / (2 * q.den)

/-- Fixed-point rendering of a non-negative rational with exactly 4
digits after the decimal point, rounding to nearest with halves up. -/
def toFixed4Mag (q : Rat) : String :=
  toString (roundTo4 q / 10000) ++ "." ++ pad4 (roundTo4 q % 10000)

/-- Modelled from the spec: the JS runtime toFixed(4) used on the
solved coordinates — format to 4 decimal places (sign first for
negative values).  The runtime float formatting is not part of this
repository. -/
def toFixed4 (q : Rat) : String :=
  if q < 0 then "-" ++ toFixed4Mag (-q) else toFixed4Mag q

/-- The historical reference image URL built by the route handler for
a calibration: the NASA SkyView query at the solved position, with a
fixed angular field size of 0.1 and 500 output pixels.  The numeric
rendering of the coordinates abstracts the JS float printing. -/
def refImageUrl (c : Calibration) : String :=
  "https://skyview.gsfc.nasa.gov/cgi-bin/images?survey=sdssi&position=" ++
    toString c.ra ++ "," ++ toString c.dec ++ "&size=0.1&pixels=500"

/-- The coords field of the response of /api/analyze-discovery. -/
structure Coords where
  ra : String
  dec : String
  deriving DecidableEq

/-- The JSON body returned by /api/analyze-discovery on success. -/
structure DiscoveryResult where
  coords : Coords
  historicalImage : String
  discovery : String
  type : String
  rawScore : Nat
  deriving DecidableEq

/-- The external world one run of the discovery pipeline interacts
with: the outcome of the login call, the outcome of the upload call
(the submission id on success), the plate-solving service for that
submission, the decode outcome of the user image buffer, and the
decode outcome of each fetchable URL (consulted at the reference
image URL). -/
structure PipelineEnv where
  login : Except String Unit
  upload : Except String Nat
  solver : Solver
  decodeUser : Except String Image
  decodeRef : String → Except String Image

/-- The /api/analyze-discovery route handler of src/server.js: log in,
upload, poll for the calibration, build the reference URL, run change
detection (fail-soft), classify against the 1500-pixel threshold and
build the response body; any error thrown before change detection
becomes an error response. -/
def analyzeDiscovery (env : PipelineEnv) : Except String DiscoveryResult :=
  match env.login with
  | .error e => .error e
  | .ok _ =>
    match env.upload with
    | .error e => .error e
    | .ok _subid =>
      match (getCalibrationResults env.solver).result with
      | .error e => .error e
      | .ok calibration =>
        let nasaUrl := refImageUrl calibration
        let diffCount := performChangeDetection env.decodeUser (env.decodeRef nasaUrl)
        let isAnomaly := diffCount > 1500
        .ok
          { coords := ⟨toFixed4 calibration.ra, toFixed4 calibration.dec⟩
            historicalImage := nasaUrl
            discovery :=
              if isAnomaly then
                "ANOMALY: Found " ++ toString diffCount ++ " pixel variances."
              else "Region stable."
            type := if isAnomaly then "SUPERNOVA" else "GALAXY"
            rawScore := diffCount }

/-- The response body the route handler builds for a calibration and
a difference count: coordinates to 4 decimal places, the reference
URL, the classification message and label, and the raw score. -/
def responseBody (cal : Calibration) (diffCount : Nat) : DiscoveryResult :=
  { coords := ⟨toFixed4 cal.ra, toFixed4 cal.dec⟩
    historicalImage := refImageUrl cal
    discovery :=
      if diffCount > 1500 then
        "ANOMALY: Found " ++ toString diffCount ++ " pixel variances."
      else "Region stable."
    type := if diffCount > 1500 then "SUPERNOVA" else "GALAXY"
    rawScore := diffCount }

theorem analyzeDiscovery_ok (env : PipelineEnv) (sub : Nat) (cal : Calibration)
    (hl : env.login = .ok ()) (hu : env.upload = .ok sub)
    (hc : (getCalibrationResults env.solver).result = .ok cal) :
    analyzeDiscovery env = .ok (responseBody cal
      (performChangeDetection env.decodeUser (env.decodeRef (refImageUrl cal)))) := by
  unfold analyzeDiscovery
  rw [hl, hu, hc]
  rfl

theorem analyzeDiscovery_ok_inv (env : PipelineEnv) (r : DiscoveryResult)
    (h : analyzeDiscovery env = .ok r) :
    ∃ cal : Calibration, (getCalibrationResults env.solver).result = .ok cal ∧
      r = responseBody cal
        (performChangeDetection env.decodeUser (env.decodeRef (refImageUrl cal))) := by
  unfold analyzeDiscovery at h
  cases hl : env.login with
  | error e => simp [hl] at h
  | ok u =>
    simp only [hl] at h
    cases hu : env.upload with
    | error e => simp [hu] at h
    | ok sub =>
      simp only [hu] at h
      cases hc : (getCalibrationResults env.solver).result with
      | error e => simp [hc] at h
      | ok cal =>
        simp only [hc, Except.ok.injEq] at h
        exact ⟨cal, rfl, h.symm⟩

/-- C1: in every pipeline run that reaches classification (returns a
success body), a difference count above 1500 is labeled SUPERNOVA
with the anomaly message carrying the raw count, and a count of at
most 1500 is labeled GALAXY with the region-stable message. -/
theorem classification_threshold_rule (env : PipelineEnv) (r : DiscoveryResult)
    (h : analyzeDiscovery env = .ok r) :
    (1500 < r.rawScore → r.type = "SUPERNOVA" ∧
      r.discovery = "ANOMALY: Found " ++ toString r.rawScore ++ " pixel variances.") ∧
    (r.rawScore ≤ 1500 → r.type = "GALAXY" ∧ r.discovery = "Region stable.") := by
  obtain ⟨cal, -, rfl⟩ := analyzeDiscovery_ok_inv env r h
  constructor
  · intro hgt
    simp only [responseBody] at hgt ⊢
    simp [hgt]
  · intro hle
    simp only [responseBody] at hle ⊢
    have hd : ¬ performChangeDetection env.decodeUser
        (env.decodeRef (refImageUrl cal)) > 1500 := by omega
    simp [hd]

/-- Solver mock that completes immediately with ra 1, dec 2. -/
def solverG : Solver :=
  ⟨fun _ => ⟨[9], [4]⟩, fun _ => ⟨mkRat 1 1, mkRat 2 1⟩⟩

/-- Environment in which both image decodes fail, so the score is 0
and the run classifies as GALAXY. -/
def envG : PipelineEnv :=
  ⟨.ok (), .ok 11, solverG, .error "decode failed", fun _ => .error "decode failed"⟩

/-- The success body of the envG run. -/
def resG : DiscoveryResult :=
  ⟨⟨"1.0000", "2.0000"⟩, refImageUrl ⟨mkRat 1 1, mkRat 2 1⟩,
    "Region stable.", "GALAXY", 0⟩

/-- Witness for C1 at the concrete run envG, whose score 0 falls in
the GALAXY branch. -/
theorem classification_threshold_rule_witness :
    resG.type = "GALAXY" ∧ resG.discovery = "Region stable." :=
  (classification_threshold_rule envG resG rfl).2 (by decide)

theorem performChangeDetection_error_left (e : String) (v : Except String Image) :
    performChangeDetection (.error e) v = 0 := by
  cases v <;> rfl

theorem performChangeDetection_error_right (u : Except String Image) (e : String) :
    performChangeDetection u (.error e) = 0 := by
  cases u <;> rfl

theorem analyzeDiscovery_score_zero (env : PipelineEnv) (sub : Nat) (cal : Calibration)
    (hl : env.login = .ok ()) (hu : env.upload = .ok sub)
    (hc : (getCalibrationResults env.solver).result = .ok cal)
    (hz : performChangeDetection env.decodeUser (env.decodeRef (refImageUrl cal)) = 0) :
    analyzeDiscovery env = .ok
      ⟨⟨toFixed4 cal.ra, toFixed4 cal.dec⟩, refImageUrl cal,
        "Region stable.", "GALAXY", 0⟩ := by
  rw [analyzeDiscovery_ok env sub cal hl hu hc, hz]
  rfl

/-- C4: whenever image decoding fails at runtime (for the user buffer
or the reference URL), the scoring stage returns 0 instead of
propagating the failure, and the pipeline still returns a normal
success body with rawScore 0, classified GALAXY, rather than an
error. -/
theorem decode_failure_fail_soft (env : PipelineEnv) (sub : Nat) (cal : Calibration)
    (hl : env.login = .ok ()) (hu : env.upload = .ok sub)
    (hc : (getCalibrationResults env.solver).result = .ok cal)
    (hd : (∃ e, env.decodeUser = .error e) ∨
      ∃ e, env.decodeRef (refImageUrl cal) = .error e) :
    performChangeDetection env.decodeUser (env.decodeRef (refImageUrl cal)) = 0 ∧
    analyzeDiscovery env = .ok
      ⟨⟨toFixed4 cal.ra, toFixed4 cal.dec⟩, refImageUrl cal,
        "Region stable.", "GALAXY", 0⟩ := by
  have hz : performChangeDetection env.decodeUser (env.decodeRef (refImageUrl cal)) = 0 := by
    rcases hd with ⟨e, he⟩ | ⟨e, he⟩
    · rw [he]; exact performChangeDetection_error_left e _
    · rw [he]; exact performChangeDetection_error_right _ e
  exact ⟨hz, analyzeDiscovery_score_zero env sub cal hl hu hc hz⟩

/-- Witness for C4 at the concrete run envG, where both decodes
fail. -/
theorem decode_failure_fail_soft_witness :
    performChangeDetection envG.decodeUser
      (envG.decodeRef (refImageUrl ⟨mkRat 1 1, mkRat 2 1⟩)) = 0 ∧
    analyzeDiscovery envG = .ok
      ⟨⟨toFixed4 (mkRat 1 1), toFixed4 (mkRat 2 1)⟩,
        refImageUrl ⟨mkRat 1 1, mkRat 2 1⟩, "Region stable.", "GALAXY", 0⟩ :=
  decode_failure_fail_soft envG 11 ⟨mkRat 1 1, mkRat 2 1⟩ rfl rfl rfl
    (.inl ⟨"decode failed", rfl⟩)

/-- A 500 by 500 black image. -/
def imgBlack : Image :=
  ⟨500, 500, fun _ _ => ⟨0, 0, 0, 255⟩⟩

/-- Environment in which the user image decodes fine but the fetch
and decode of the reference image fails. -/
def envRF : PipelineEnv :=
  ⟨.ok (), .ok 11, solverG, .ok imgBlack, fun _ => .error "ref fetch failed"⟩

/-- C5 counterexample: a concrete run in which the reference-image
fetch fails, yet the pipeline does not abort with an error — it
returns a normal GALAXY classification with score 0 to the caller. -/
theorem reference_fetch_failure_counterexample :
    envRF.decodeRef (refImageUrl ⟨mkRat 1 1, mkRat 2 1⟩) = .error "ref fetch failed" ∧
    analyzeDiscovery envRF = .ok resG := by
  exact ⟨rfl, rfl⟩

/-- C5 amended: a failed fetch of the reference image is not a hard
failure — it is caught inside the scoring stage and mapped to score
0, so the caller receives a normal GALAXY classification rather than
an explicit error result. -/
theorem reference_fetch_failure_fail_soft (env : PipelineEnv) (sub : Nat)
    (cal : Calibration) (e : String)
    (hl : env.login = .ok ()) (hu : env.upload = .ok sub)
    (hc : (getCalibrationResults env.solver).result = .ok cal)
    (hr : env.decodeRef (refImageUrl cal) = .error e) :
    analyzeDiscovery env = .ok
      ⟨⟨toFixed4 cal.ra, toFixed4 cal.dec⟩, refImageUrl cal,
        "Region stable.", "GALAXY", 0⟩ := by
  apply analyzeDiscovery_score_zero env sub cal hl hu hc
  rw [hr]
  exact performChangeDetection_error_right _ e

/-- Witness for the amended C5 at the concrete run envRF. -/
theorem reference_fetch_failure_fail_soft_witness :
    analyzeDiscovery envRF = .ok
      ⟨⟨toFixed4 (mkRat 1 1), toFixed4 (mkRat 2 1)⟩,
        refImageUrl ⟨mkRat 1 1, mkRat 2 1⟩, "Region stable.", "GALAXY", 0⟩ :=
  reference_fetch_failure_fail_soft envRF 11 ⟨mkRat 1 1, mkRat 2 1⟩
    "ref fetch failed" rfl rfl rfl rfl

/-- C8: comparing any image against an identical copy of itself
scores 0, and the pipeline run classifies the result as GALAXY. -/
theorem identical_images_zero_score_galaxy (env : PipelineEnv) (sub : Nat)
    (cal : Calibration) (img : Image)
    (hl : env.login = .ok ()) (hu : env.upload = .ok sub)
    (hc : (getCalibrationResults env.solver).result = .ok cal)
    (hdu : env.decodeUser = .ok img)
    (hdr : env.decodeRef (refImageUrl cal) = .ok img) :
    performChangeDetection env.decodeUser (env.decodeRef (refImageUrl cal)) = 0 ∧
    analyzeDiscovery env = .ok
      ⟨⟨toFixed4 cal.ra, toFixed4 cal.dec⟩, refImageUrl cal,
        "Region stable.", "GALAXY", 0⟩ := by
  have hz : performChangeDetection env.decodeUser (env.decodeRef (refImageUrl cal)) = 0 := by
    rw [hdu, hdr]
    show countDiff img.normalize img.normalize 500 500 = 0
    exact countDiff_self img.normalize 500 500
  exact ⟨hz, analyzeDiscovery_score_zero env sub cal hl hu hc hz⟩

/-- Environment in which both decodes yield the same black image. -/
def envSame : PipelineEnv :=
  ⟨.ok (), .ok 11, solverG, .ok imgBlack, fun _ => .ok imgBlack⟩

/-- Witness for C8 at the concrete run envSame, comparing the black
image with itself. -/
theorem identical_images_zero_score_galaxy_witness :
    performChangeDetection envSame.decodeUser
      (envSame.decodeRef (refImageUrl ⟨mkRat 1 1, mkRat 2 1⟩)) = 0 ∧
    analyzeDiscovery envSame = .ok
      ⟨⟨toFixed4 (mkRat 1 1), toFixed4 (mkRat 2 1)⟩,
        refImageUrl ⟨mkRat 1 1, mkRat 2 1⟩, "Region stable.", "GALAXY", 0⟩ :=
  identical_images_zero_score_galaxy envSame 11 ⟨mkRat 1 1, mkRat 2 1⟩ imgBlack
    rfl rfl rfl rfl rfl

/-- C9: with a solver that reports a completed job on the third
attempt returning ra 180.1234 and dec 45.6789, and an image pair
scoring 2000 differing pixels, the pipeline returns coordinates
"180.1234" and "45.6789", type SUPERNOVA and rawScore 2000. -/
theorem end_to_end_supernova_scenario (env : PipelineEnv) (sub : Nat)
    (hl : env.login = .ok ()) (hu : env.upload = .ok sub)
    (h0 : (env.solver.status 0).job_calibrations = [])
    (h1 : (env.solver.status 1).job_calibrations = [])
    (h2 : (env.solver.status 2).job_calibrations ≠ [])
    (hcal : env.solver.calibOf (env.solver.status 2).jobs.head? =
      ⟨mkRat 1801234 10000, mkRat 456789 10000⟩)
    (hscore : performChangeDetection env.decodeUser
      (env.decodeRef (refImageUrl ⟨mkRat 1801234 10000, mkRat 456789 10000⟩)) = 2000) :
    analyzeDiscovery env = .ok
      ⟨⟨"180.1234", "45.6789"⟩,
        refImageUrl ⟨mkRat 1801234 10000, mkRat 456789 10000⟩,
        "ANOMALY: Found 2000 pixel variances.", "SUPERNOVA", 2000⟩ := by
  have hpoll := pollSteps_first_success env.solver 20 0 2 (by norm_num)
    (by intro j hj; interval_cases j <;> simp [h0, h1])
    (by simpa using h2)
  have hres : (getCalibrationResults env.solver).result =
      .ok (⟨mkRat 1801234 10000, mkRat 456789 10000⟩ : Calibration) := by
    rw [getCalibrationResults, hpoll]
    show Except.ok (env.solver.calibOf (env.solver.status (0 + 2)).jobs.head?) = _
    rw [show (0 + 2 : Nat) = 2 from rfl, hcal]
  have hok := analyzeDiscovery_ok env sub ⟨mkRat 1801234 10000, mkRat 456789 10000⟩
    hl hu hres
  rw [hscore] at hok
  rw [hok]
  simp only [Except.ok.injEq]
  decide

/-- A 500 by 500 image that is white on its top 4 rows and black
below: it differs from the black image in exactly 2000 pixel
positions. -/
def imgStripe : Image :=
  ⟨500, 500, fun _ y => if y < 4 then ⟨255, 255, 255, 255⟩ else ⟨0, 0, 0, 255⟩⟩

set_option maxRecDepth 20000 in
theorem stripe_pair_scores_2000 :
    performChangeDetection (.ok imgBlack) (.ok imgStripe) = 2000 := by
  show countDiff imgBlack.normalize imgStripe.normalize 500 500 = 2000
  unfold countDiff
  have hcongr : ∀ p ∈ Finset.range 500 ×ˢ Finset.range 500,
      (pixelDiffers (imgBlack.normalize.pix p.1 p.2) (imgStripe.normalize.pix p.1 p.2) = true)
        ↔ p.2 < 4 := by
    intro p hp
    simp only [Image.normalize, Image.resize, Image.greyscale, imgBlack, imgStripe]
    rw [Nat.mul_div_cancel _ (by norm_num : (0 : Nat) < 500)]
    by_cases h4 : p.2 < 4
    · simp [h4, pixelDiffers, luminance, Nat.dist]
    · simp [h4, pixelDiffers, luminance, Nat.dist]
  rw [Finset.filter_congr hcongr]
  have hset : (Finset.range 500 ×ˢ Finset.range 500).filter (fun x => x.2 < 4)
      = Finset.range 500 ×ˢ Finset.range 4 := by
    ext x
    simp only [Finset.mem_filter, Finset.mem_product, Finset.mem_range]
    omega
  rw [hset, Finset.card_product, Finset.card_range, Finset.card_range]

/-- Solver mock for the end-to-end scenario: completed job on the
third attempt, calibration ra 180.1234, dec 45.6789. -/
def solverNine : Solver :=
  ⟨fun i => if i = 2 then ⟨[5], [42]⟩ else ⟨[], []⟩,
    fun _ => ⟨mkRat 1801234 10000, mkRat 456789 10000⟩⟩

/-- Environment for the end-to-end scenario: the user image decodes
to the black image and the reference image to the striped one, a pair
differing in exactly 2000 pixels. -/
def envNine : PipelineEnv :=
  ⟨.ok (), .ok 7, solverNine, .ok imgBlack, fun _ => .ok imgStripe⟩

/-- Witness for C9 at the concrete run envNine. -/
theorem end_to_end_supernova_scenario_witness :
    analyzeDiscovery envNine = .ok
      ⟨⟨"180.1234", "45.6789"⟩,
        refImageUrl ⟨mkRat 1801234 10000, mkRat 456789 10000⟩,
        "ANOMALY: Found 2000 pixel variances.", "SUPERNOVA", 2000⟩ :=
  end_to_end_supernova_scenario envNine 7 rfl rfl rfl rfl (by decide) rfl
    stripe_pair_scores_2000

theorem string_append_assoc (a b c : String) : a ++ b ++ c = a ++ (b ++ c) := by
  apply String.ext
  simp [String.data_append]

/-- C10: in every success body the fields are mutually consistent:
the type is SUPERNOVA exactly when rawScore exceeds 1500, the
discovery message is an extension of "ANOMALY: Found " exactly when
the type is SUPERNOVA, and in that case the count embedded in the
message is rawScore itself. -/
theorem discovery_fields_consistent (env : PipelineEnv) (r : DiscoveryResult)
    (h : analyzeDiscovery env = .ok r) :
    (r.type = "SUPERNOVA" ↔ 1500 < r.rawScore) ∧
    ((∃ rest, r.discovery = "ANOMALY: Found " ++ rest) ↔ r.type = "SUPERNOVA") ∧
    (r.type = "SUPERNOVA" →
      r.discovery = "ANOMALY: Found " ++ toString r.rawScore ++ " pixel variances.") := by
  obtain ⟨cal, -, rfl⟩ := analyzeDiscovery_ok_inv env r h
  by_cases hd : performChangeDetection env.decodeUser (env.decodeRef (refImageUrl cal)) > 1500
  · refine ⟨by simp [responseBody, hd], ⟨fun _ => by simp [responseBody, hd], fun _ => ?_⟩,
      fun _ => by simp [responseBody, hd]⟩
    refine ⟨toString (performChangeDetection env.decodeUser (env.decodeRef (refImageUrl cal)))
      ++ " pixel variances.", ?_⟩
    simp only [responseBody, hd, if_pos]
    rw [string_append_assoc]
  · have hnot : ¬ ∃ rest, (responseBody cal
        (performChangeDetection env.decodeUser (env.decodeRef (refImageUrl cal)))).discovery
        = "ANOMALY: Found " ++ rest := by
      rintro ⟨rest, hr⟩
      simp only [responseBody, hd, if_neg, ite_false] at hr
      have hlen := congrArg String.length hr
      rw [String.length_append] at hlen
      have h14 : ("Region stable." : String).length = 14 := by decide
      have h15 : ("ANOMALY: Found " : String).length = 15 := by decide
      rw [h14, h15] at hlen
      omega
    refine ⟨by simp [responseBody, hd], ⟨fun hex => absurd hex hnot, fun hty => ?_⟩,
      fun hty => ?_⟩
    · exfalso
      simp [responseBody, hd] at hty
    · exfalso
      simp [responseBody, hd] at hty

/-- Witness for C10 at the concrete run envG. -/
theorem discovery_fields_consistent_witness :
    (resG.type = "SUPERNOVA" ↔ 1500 < resG.rawScore) ∧
    ((∃ rest, resG.discovery = "ANOMALY: Found " ++ rest) ↔ resG.type = "SUPERNOVA") ∧
    (resG.type = "SUPERNOVA" →
      resG.discovery = "ANOMALY: Found " ++ toString resG.rawScore ++ " pixel variances.") :=
  discovery_fields_consistent envG resG rfl
